import Mathlib

/-!
# Verification of the nano-banana-edit image pipeline

Shallow embedding of the core logic of the repository:
* the centered aspect-ratio crop geometry (`cropImage` in `src/App.tsx`),
* the exponential-backoff retry wrapper (`withRetry` in
  `src/services/geminiService.ts`),
* the provider error classifier (`handleGeminiError`),
* the response parsing of `editImage`, and
* the submission handler (`handleSubmit` in `src/App.tsx`).

Numeric pixel dimensions and ratios are modelled over `ℚ` (the source uses
JavaScript doubles; all claims here are exact over the rationals).  Delays
and attempt counts are `ℕ`.  Thrown JavaScript errors are modelled as
`Except String` values carrying the error message, since the source code
distinguishes error classes only by their message strings.

String primitives used by the source (`includes`, `split`, `startsWith`,
`trim`, numeric parsing) are given structurally recursive implementations
over `List Char` so that all definitions evaluate by kernel reduction.
-/

namespace NanoBanana

/-! ## String primitives -/

/-- `startsWithL pat cs` is true when the char list `cs` starts with `pat`.
Models JavaScript `String.prototype.startsWith` on char lists. -/
def startsWithL : List Char → List Char → Bool
  | [], _ => true
  | _ :: _, [] => false
  | a :: as, b :: bs => a == b && startsWithL as bs

/-- `hasSubL pat cs` is true when `pat` occurs as a contiguous sublist of
`cs`.  Models JavaScript `String.prototype.includes` on char lists. -/
def hasSubL (pat : List Char) : List Char → Bool
  | [] => startsWithL pat []
  | c :: cs => startsWithL pat (c :: cs) || hasSubL pat cs

/-- `containsSub s pat` models the JavaScript test `s.includes(pat)` used
throughout `src/services/geminiService.ts` to classify errors. -/
def containsSub (s pat : String) : Bool :=
  hasSubL pat.data s.data

/-- JavaScript whitespace test for `trim` (the messages involved only ever
use these whitespace characters). -/
def isWhitespaceChar (c : Char) : Bool :=
  c == ' ' || c == '\t' || c == '\n' || c == '\r'

/-- Drops leading whitespace; together with `startsWithL` this models the
`errorMessage.trim().startsWith('{')` test of `handleGeminiError`. -/
def dropLeadingWs : List Char → List Char
  | [] => []
  | c :: cs => if isWhitespaceChar c then dropLeadingWs cs else c :: cs

/-- Splits a char list on a separator character; models
`String.prototype.split(':')` as used by `getAspectRatioFromString`. -/
def splitOnChar (sep : Char) : List Char → List Char → List (List Char)
  | [], acc => [acc.reverse]
  | c :: cs, acc =>
    if c == sep then acc.reverse :: splitOnChar sep cs []
    else splitOnChar sep cs (c :: acc)

/-- Value of a decimal digit character, if it is one. -/
def digitVal (c : Char) : Option ℕ :=
  if '0' ≤ c ∧ c ≤ '9' then some (c.toNat - '0'.toNat) else none

/-- Accumulating decimal parse. -/
def parseNatGo : List Char → ℕ → Option ℕ
  | [], acc => some acc
  | c :: cs, acc =>
    match digitVal c with
    | some d => parseNatGo cs (acc * 10 + d)
    | none => none

/-- Parses a nonempty all-digit char list as a natural number.  Models the
`Number(...)` coercion of `getAspectRatioFromString` on the digit strings
the application passes (the five fixed ratio selections); non-numeric input
is modelled as a `none` parse result. -/
def parseNatChars (cs : List Char) : Option ℕ :=
  match cs with
  | [] => none
  | _ => parseNatGo cs 0

/-! ## Crop geometry — `cropImage` and `getAspectRatioFromString` in `src/App.tsx` -/

/-- A crop rectangle: origin `(x, y)` and size `(width, height)`, as passed
to `ctx.drawImage` by `cropImage`. -/
structure CropRect where
  x : ℚ
  y : ℚ
  width : ℚ
  height : ℚ
deriving Repr, DecidableEq

/-- Embeds `getAspectRatioFromString` from `src/App.tsx`: splits the ratio
string on a colon and divides the first component by the second. -/
def getAspectRatioFromString (s : String) : Option ℚ :=
  match splitOnChar ':' s.data [] with
  | ws :: hs :: _ =>
    match parseNatChars ws, parseNatChars hs with
    | some w, some h => some ((w : ℚ) / (h : ℚ))
    | _, _ => none
  | _ => none

/-- The crop-geometry computation inside `cropImage` (`src/App.tsx`,
lines 41–55): given the source pixel dimensions and the numeric target
ratio, selects the centered crop rectangle.  Mirrors the source branch on
`originalRatio > targetRatio`. -/
def cropGeometry (originalWidth originalHeight targetRatioQ : ℚ) : CropRect :=
  let originalRatioQ := originalWidth / originalHeight
  if originalRatioQ > targetRatioQ then
    -- Original image is wider than target, crop the width
    let cropHeight := originalHeight
    let cropWidth := originalHeight * targetRatioQ
    { x := (originalWidth - cropWidth) / 2, y := 0,
      width := cropWidth, height := cropHeight }
  else
    -- Original image is taller than target, crop the height
    let cropWidth := originalWidth
    let cropHeight := originalWidth / targetRatioQ
    { x := 0, y := (originalHeight - cropHeight) / 2,
      width := cropWidth, height := cropHeight }

/-! ## Retry policy — `withRetry` in `src/services/geminiService.ts`

The source decides whether an error is transient by substring tests on the
error message (`msg.includes("429")` etc.); `isRetryableMsg` embeds that
test verbatim.  The loop is embedded as `retryLoop`, recursing on the number
of remaining attempts and tracking the result, the number of invocations of
the operation, and the list of backoff delays waited (in order).  The
operation itself is modelled as a function from the invocation index to an
`Except String` outcome. -/

/-- The transient-error test of `withRetry`
(`src/services/geminiService.ts`, lines 84–90). -/
def isRetryableMsg (msg : String) : Bool :=
  containsSub msg "429" ||
  containsSub msg "503" ||
  containsSub msg "Quota" ||
  containsSub msg "High Traffic" ||
  containsSub msg "RESOURCE_EXHAUSTED" ||
  containsSub msg "fetch failed"

/-- Decidable equality for `Except` outcomes, so that concrete retry traces
can be evaluated by `decide`. -/
instance exceptDecEq {ε α : Type} [DecidableEq ε] [DecidableEq α] :
    DecidableEq (Except ε α) := fun a b =>
  match a, b with
  | Except.error e₁, Except.error e₂ =>
    if h : e₁ = e₂ then isTrue (by rw [h])
    else isFalse (fun hc => by injection hc; contradiction)
  | Except.error _, Except.ok _ => isFalse (fun hc => Except.noConfusion hc)
  | Except.ok _, Except.error _ => isFalse (fun hc => Except.noConfusion hc)
  | Except.ok v₁, Except.ok v₂ =>
    if h : v₁ = v₂ then isTrue (by rw [h])
    else isFalse (fun hc => by injection hc; contradiction)

/-- Observable trace of one `withRetry` run: the final outcome, how many
times the wrapped operation was invoked, and the delays waited between
invocations. -/
structure RetryTrace (T : Type) where
  result : Except String T
  calls : ℕ
  waits : List ℕ
deriving Repr, DecidableEq

/-- The `for` loop of `withRetry`: `remaining` attempts are left, the next
invocation has index `i`, and `lastErr` is the message of the previous
failure (the source's `lastError`; the final `throw lastError` after the
loop is reachable only when `retries = 0`).  On a failure that is retryable
and not the last attempt, waits `initialDelay * 2 ^ i` and continues. -/
def retryLoop {T : Type} (op : ℕ → Except String T) (initialDelay : ℕ) :
    ℕ → ℕ → String → RetryTrace T
  | 0, _, lastErr => { result := Except.error lastErr, calls := 0, waits := [] }
  | remaining + 1, i, _ =>
    match op i with
    | Except.ok v => { result := Except.ok v, calls := 1, waits := [] }
    | Except.error msg =>
      if !isRetryableMsg msg || remaining == 0 then
        { result := Except.error msg, calls := 1, waits := [] }
      else
        let rest := retryLoop op initialDelay remaining (i + 1) msg
        { result := rest.result, calls := rest.calls + 1,
          waits := initialDelay * 2 ^ i :: rest.waits }

/-- Embeds `withRetry(operation, retries, initialDelay)` from
`src/services/geminiService.ts`. -/
def withRetry {T : Type} (op : ℕ → Except String T)
    (retries initialDelay : ℕ) : RetryTrace T :=
  retryLoop op initialDelay retries 0 ""

/-- Default `retries` of `withRetry` in `src/services/geminiService.ts`
(line 71), used by `editImage` and `generateImageFromText`, which pass no
explicit arguments. -/
def withRetryDefaultRetries : ℕ := 3

/-- Default `initialDelay` of `withRetry` in `src/services/geminiService.ts`
(line 72). -/
def withRetryDefaultDelay : ℕ := 2000

/-- Default `retries` of the `withRetry` variant in `src/unnamed/part_001`
(line 55). -/
def part001DefaultRetries : ℕ := 4

/-- Default `initialDelay` of the `withRetry` variant in
`src/unnamed/part_001` (line 56). -/
def part001DefaultDelay : ℕ := 5000

/-! ## Error classification — `handleGeminiError` in `src/services/geminiService.ts`

`handleGeminiError` has return type `never`: it always throws.  It is
modelled as a total function from the incoming error message to the message
of the error it throws.  Its third branch attempts `JSON.parse` on the
message; that parser is abstracted by a `JsonParseOutcome`-valued parameter
(the branch either rethrows a fixed quota message when the parsed error has
code 429 / status RESOURCE_EXHAUSTED, substitutes the parsed error message,
or keeps the original message when parsing fails or no error field is
present). -/

/-- Message thrown by `handleGeminiError` for rate-limit / quota errors
(line 36). -/
def quotaExceededMsg : String :=
  "⚠️ High Traffic / Quota Exceeded. The free tier limit for this model has been reached. Please wait a minute and try again."

/-- Message thrown by `handleGeminiError` for safety blocks (line 41). -/
def safetyBlockMsg : String :=
  "🛡️ Content Blocked. The request was flagged by safety filters. Please try a different prompt."

/-- Message thrown inside the JSON branch of `handleGeminiError` when the
parsed body carries a 429 / RESOURCE_EXHAUSTED error (line 53). -/
def quotaRetryingMsg : String :=
  "⚠️ High Traffic / Quota Exceeded. The free tier limit has been reached. Retrying..."

/-- Abstraction of the `JSON.parse` step in `handleGeminiError`. -/
inductive JsonParseOutcome where
  | parseFailed
  | quotaCode
  | replaceMsg (m : String)
  | noErrorField
deriving Repr, DecidableEq

/-- The trigger of the JSON branch of `handleGeminiError` (line 45):
`errorMessage.trim().startsWith('{') || errorMessage.includes('{"error":')`. -/
def jsonTrigger (msg : String) : Bool :=
  startsWithL ['\x7b'] (dropLeadingWs msg.data) ||
  containsSub msg "\x7b\"error\":"

/-- Embeds `handleGeminiError` (`src/services/geminiService.ts`,
lines 25–63), returning the message of the error it throws. -/
def handleGeminiError (parseStep : String → JsonParseOutcome)
    (msg : String) : String :=
  if containsSub msg "429" || containsSub msg "RESOURCE_EXHAUSTED" ||
      containsSub msg "Quota exceeded" then
    quotaExceededMsg
  else if containsSub msg "SAFETY" || containsSub msg "blocked" then
    safetyBlockMsg
  else if jsonTrigger msg then
    match parseStep msg with
    | JsonParseOutcome.quotaCode => quotaRetryingMsg
    | JsonParseOutcome.replaceMsg m => "Generation Failed: " ++ m
    | JsonParseOutcome.parseFailed => "Generation Failed: " ++ msg
    | JsonParseOutcome.noErrorField => "Generation Failed: " ++ msg
  else
    "Generation Failed: " ++ msg

/-! ## Response parsing — `editImage` in `src/services/geminiService.ts`

The provider response is modelled as
`Option (List CandidatePart)` standing for
`response.candidates?.[0]?.content?.parts`.  JavaScript truthiness is
modelled explicitly: a part's `inlineData` is truthy iff present, a part's
`text` is truthy iff present and nonempty. -/

/-- `inlineData` of a response part: image bytes and MIME type. -/
structure InlinePayload where
  mimeType : String
  data : String
deriving Repr, DecidableEq

/-- One entry of `response.candidates[0].content.parts`. -/
structure CandidatePart where
  inlineData : Option InlinePayload
  text : Option String
deriving Repr, DecidableEq

/-- The `for` loop of `editImage` (lines 144–148): the first part carrying
`inlineData`. -/
def firstInlinePayload (parts : List CandidatePart) : Option InlinePayload :=
  (parts.find? fun p => p.inlineData.isSome).bind fun p => p.inlineData

/-- `parts.find(p => p.text)` (line 151): the first part whose `text` is
truthy, i.e. present and nonempty. -/
def firstNonemptyText (parts : List CandidatePart) : Option String :=
  (parts.find? fun p => !(p.text.getD "" == "")).bind fun p => p.text

/-- The response-extraction logic of the `try` block of `editImage`
(lines 141–156): data URL on the first inline image, `Model Refused` on a
text-only response, `No image data found in response` otherwise; a missing
parts array throws `No content generated` (line 142). -/
def extractFromParts (parts : List CandidatePart) : Except String String :=
  match firstInlinePayload parts with
  | some d => Except.ok ("data:" ++ d.mimeType ++ ";base64," ++ d.data)
  | none =>
    match firstNonemptyText parts with
    | some t => Except.error ("Model Refused: " ++ t)
    | none => Except.error "No image data found in response"

/-- One attempt of `editImage` (the async closure passed to `withRetry`):
any throw from the `try` block is routed through `handleGeminiError`.  The
trailing `return ""` of the source is unreachable because
`handleGeminiError` always throws, so it has no counterpart here. -/
def editImageAttempt (parseStep : String → JsonParseOutcome)
    (resp : Option (List CandidatePart)) : Except String String :=
  match resp with
  | none => Except.error (handleGeminiError parseStep "No content generated")
  | some parts =>
    match extractFromParts parts with
    | Except.ok url => Except.ok url
    | Except.error e => Except.error (handleGeminiError parseStep e)

/-- Embeds `editImage` (lines 110–163): the per-attempt parsing wrapped in
`withRetry` with the default retry parameters (no explicit arguments are
passed at line 118).  `resps i` is the provider response received by the
`i`-th attempt. -/
def editImage (parseStep : String → JsonParseOutcome)
    (resps : ℕ → Option (List CandidatePart)) : RetryTrace String :=
  withRetry (fun i => editImageAttempt parseStep (resps i))
    withRetryDefaultRetries withRetryDefaultDelay

/-! ## Submission — `handleSubmit` in `src/App.tsx`

The relevant component state and the submission handler, embedded as a pure
state transformer.  The remote call (`editImage` / `generateImageFromText`)
is passed in as its `Except` outcome, and `cropImage` as a fallible
function; the second component of the result counts how many times the
remote transform operation was invoked during the submission. -/

/-- The editor mode toggle of `src/App.tsx` (line 116). -/
inductive Mode where
  | imageToImage
  | textToImage
deriving Repr, DecidableEq

/-- `ImageFile` from `src/types.ts` as constructed by `fileToImageFile`. -/
structure ImageFile where
  dataUrl : String
  base64 : String
  mimeType : String
deriving Repr, DecidableEq

/-- The `App` component state touched by `handleSubmit`. -/
structure EditorState where
  mode : Mode
  originalImage : Option ImageFile
  prompt : String
  editedImage : Option String
  error : Option String
  autoRatioOn : Bool
  aspectRatioStr : String
deriving Repr, DecidableEq

/-- Validation message for an empty prompt (`src/App.tsx`, line 374). -/
def emptyPromptMsg : String := "Please provide an editing instruction."

/-- Validation message for a missing source image in Image-to-Image mode
(`src/App.tsx`, line 378). -/
def missingImageMsg : String := "Please upload an image for Image to Image mode."

/-- Embeds `handleSubmit` (`src/App.tsx`, lines 372–410).  Returns the
updated state and the number of invocations of the remote transform
operation.  Mirrors the source: validation happens before anything is
cleared; a non-validation submission first clears `error` and
`editedImage`, then stores either the (optionally cropped) result or the
error message of the failure. -/
def handleSubmit (s : EditorState) (remote : Except String String)
    (cropFn : String → String → Except String String) :
    EditorState × ℕ :=
  if s.prompt = "" then
    ({ s with error := some emptyPromptMsg }, 0)
  else if s.mode = Mode.imageToImage ∧ s.originalImage = none then
    ({ s with error := some missingImageMsg }, 0)
  else
    let s1 : EditorState := { s with error := none, editedImage := none }
    match remote with
    | Except.error e => ({ s1 with error := some e }, 1)
    | Except.ok newImageFromApi =>
      if s.autoRatioOn then
        ({ s1 with editedImage := some newImageFromApi }, 1)
      else
        match cropFn newImageFromApi s.aspectRatioStr with
        | Except.ok cropped => ({ s1 with editedImage := some cropped }, 1)
        | Except.error e => ({ s1 with error := some e }, 1)
/-- Branch-explicit form of `cropGeometry`. -/
theorem cropGeometry_eq (W0 H0 R : ℚ) :
    cropGeometry W0 H0 R =
      if W0 / H0 > R then
        { x := (W0 - H0 * R) / 2, y := 0, width := H0 * R, height := H0 }
      else
        { x := 0, y := (H0 - W0 / R) / 2, width := W0, height := W0 / R } := by
  unfold cropGeometry
  by_cases hb : W0 / H0 > R <;> simp [hb]

/-- C1: for every source image with positive pixel dimensions `W0, H0` and
every positive target ratio `R` parsed from an aspect-ratio string, the crop
geometry is exactly the one the claim states (the `W0/H0 > R` branch selects
height `H0`, width `H0·R` at `x = (W0 − cropWidth)/2, y = 0`, and the other
branch symmetrically), the selected region has width/height ratio exactly
`R`, and it is centered in the source on both axes. -/
theorem cropImage_centered_with_target_ratio
    (W0 H0 R : ℚ) (s : String)
    (hs : getAspectRatioFromString s = some R)
    (hW : 0 < W0) (hH : 0 < H0) (hR : 0 < R) :
    cropGeometry W0 H0 R =
      (if W0 / H0 > R then
        { x := (W0 - H0 * R) / 2, y := 0, width := H0 * R, height := H0 }
      else
        { x := 0, y := (H0 - W0 / R) / 2, width := W0, height := W0 / R }) ∧
    (cropGeometry W0 H0 R).width / (cropGeometry W0 H0 R).height = R ∧
    (cropGeometry W0 H0 R).x = (W0 - (cropGeometry W0 H0 R).width) / 2 ∧
    (cropGeometry W0 H0 R).y = (H0 - (cropGeometry W0 H0 R).height) / 2 := by
  have hH0 : H0 ≠ 0 := ne_of_gt hH
  have hW0 : W0 ≠ 0 := ne_of_gt hW
  have hR0 : R ≠ 0 := ne_of_gt hR
  refine ⟨cropGeometry_eq W0 H0 R, ?_, ?_, ?_⟩
  · rw [cropGeometry_eq]
    by_cases hb : W0 / H0 > R
    · rw [if_pos hb]
      show H0 * R / H0 = R
      field_simp
      try ring
    · rw [if_neg hb]
      show W0 / (W0 / R) = R
      field_simp
      try ring
  · rw [cropGeometry_eq]
    by_cases hb : W0 / H0 > R
    · rw [if_pos hb]
    · rw [if_neg hb]
      show (0 : ℚ) = (W0 - W0) / 2
      simp
  · rw [cropGeometry_eq]
    by_cases hb : W0 / H0 > R
    · rw [if_pos hb]
      show (0 : ℚ) = (H0 - H0) / 2
      simp
    · rw [if_neg hb]

/-- Witness for C1 at `W0 = 16, H0 = 9, R = 1` parsed from `"1:1"`. -/
theorem cropImage_centered_with_target_ratio_witness :
    cropGeometry 16 9 1 =
      (if (16 : ℚ) / 9 > 1 then
        { x := ((16 : ℚ) - 9 * 1) / 2, y := 0, width := 9 * 1, height := 9 }
      else
        { x := 0, y := ((9 : ℚ) - 16 / 1) / 2, width := 16, height := 16 / 1 }) ∧
    (cropGeometry 16 9 1).width / (cropGeometry 16 9 1).height = 1 ∧
    (cropGeometry 16 9 1).x = (16 - (cropGeometry 16 9 1).width) / 2 ∧
    (cropGeometry 16 9 1).y = (9 - (cropGeometry 16 9 1).height) / 2 :=
  cropImage_centered_with_target_ratio 16 9 1 "1:1"
    (by
      have h1 : getAspectRatioFromString "1:1"
          = some (((1 : ℕ) : ℚ) / ((1 : ℕ) : ℚ)) := rfl
      rw [h1]
      norm_num)
    (by norm_num) (by norm_num) (by norm_num)

/-- C9: for an image whose dimensions already satisfy the target ratio
exactly (`W0/H0 = R`), the crop geometry selects the whole image at origin
`(0,0)`, and applying the geometry a second time with the same `R` to the
selected region selects that same full region again. -/
theorem cropImage_conforming_identity
    (W0 H0 R : ℚ) (hW : 0 < W0) (hH : 0 < H0) (hconf : W0 / H0 = R) :
    cropGeometry W0 H0 R = { x := 0, y := 0, width := W0, height := H0 } ∧
    cropGeometry (cropGeometry W0 H0 R).width (cropGeometry W0 H0 R).height R
      = { x := 0, y := 0,
          width := (cropGeometry W0 H0 R).width,
          height := (cropGeometry W0 H0 R).height } := by
  have hH0 : H0 ≠ 0 := ne_of_gt hH
  have hW0 : W0 ≠ 0 := ne_of_gt hW
  have hnb : ¬ W0 / H0 > R := by
    rw [hconf]
    exact lt_irrefl R
  have hWR : W0 / R = H0 := by
    rw [← hconf]
    field_simp
    try ring
  have honce : cropGeometry W0 H0 R = { x := 0, y := 0, width := W0, height := H0 } := by
    rw [cropGeometry_eq, if_neg hnb, hWR]
    simp
  refine ⟨honce, ?_⟩
  rw [honce]
  simpa using honce

/-- Witness for C9 at `W0 = 640, H0 = 480, R = 4/3`. -/
theorem cropImage_conforming_identity_witness :
    cropGeometry 640 480 (4 / 3) = { x := 0, y := 0, width := 640, height := 480 } ∧
    cropGeometry (cropGeometry 640 480 (4 / 3)).width
        (cropGeometry 640 480 (4 / 3)).height (4 / 3)
      = { x := 0, y := 0,
          width := (cropGeometry 640 480 (4 / 3)).width,
          height := (cropGeometry 640 480 (4 / 3)).height } :=
  cropImage_conforming_identity 640 480 (4 / 3)
    (by norm_num) (by norm_num) (by norm_num)


/-- The loop never invokes the operation more often than it has attempts
remaining. -/
theorem retryLoop_calls_le {T : Type} (op : ℕ → Except String T) (d : ℕ) :
    ∀ (remaining i : ℕ) (e : String),
      (retryLoop op d remaining i e).calls ≤ remaining := by
  intro remaining
  induction remaining with
  | zero =>
    intro i e
    simp [retryLoop]
  | succ n ih =>
    intro i e
    rw [retryLoop]
    cases h : op i with
    | ok v => simp
    | error msg =>
      by_cases hb : (!isRetryableMsg msg || n == 0) = true
      · simp [hb]
      · simp only [Bool.not_eq_true] at hb
        simp only [hb, Bool.false_eq_true, if_false]
        have := ih (i + 1) msg
        show (retryLoop op d n (i + 1) msg).calls + 1 ≤ n + 1
        omega

/-- With at least one attempt remaining, the operation is invoked at least
once. -/
theorem retryLoop_calls_pos {T : Type} (op : ℕ → Except String T) (d : ℕ)
    (n i : ℕ) (e : String) : 1 ≤ (retryLoop op d (n + 1) i e).calls := by
  rw [retryLoop]
  cases h : op i with
  | ok v => simp
  | error msg =>
    by_cases hb : (!isRetryableMsg msg || n == 0) = true
    · simp [hb]
    · simp only [Bool.not_eq_true] at hb
      simp only [hb, Bool.false_eq_true, if_false]
      omega

/-- The delays waited are exactly `d * 2 ^ (i + j)` for the retries
`j = 0, 1, …` performed, in order. -/
theorem retryLoop_waits_eq {T : Type} (op : ℕ → Except String T) (d : ℕ) :
    ∀ (remaining i : ℕ) (e : String),
      (retryLoop op d remaining i e).waits
        = (List.range ((retryLoop op d remaining i e).calls - 1)).map
            (fun j => d * 2 ^ (i + j)) := by
  intro remaining
  induction remaining with
  | zero =>
    intro i e
    simp [retryLoop]
  | succ n ih =>
    intro i e
    rw [retryLoop]
    cases h : op i with
    | ok v => simp
    | error msg =>
      by_cases hb : (!isRetryableMsg msg || n == 0) = true
      · simp [hb]
      · simp only [Bool.not_eq_true] at hb
        have hn : n ≠ 0 := by
          intro h0
          rw [h0] at hb
          simp at hb
        obtain ⟨m, rfl⟩ : ∃ m, n = m + 1 := ⟨n - 1, by omega⟩
        simp only [hb, Bool.false_eq_true, if_false]
        have hpos := retryLoop_calls_pos op d m (i + 1) msg
        obtain ⟨c, hc⟩ : ∃ c, (retryLoop op d (m + 1) (i + 1) msg).calls = c + 1 :=
          ⟨(retryLoop op d (m + 1) (i + 1) msg).calls - 1, by omega⟩
        have hw := ih (i + 1) msg
        rw [hc] at hw
        simp only [Nat.add_sub_cancel] at hw
        show d * 2 ^ i :: (retryLoop op d (m + 1) (i + 1) msg).waits
            = (List.range ((retryLoop op d (m + 1) (i + 1) msg).calls + 1 - 1)).map
                (fun j => d * 2 ^ (i + j))
        rw [hc, hw]
        simp only [Nat.add_sub_cancel]
        rw [List.range_succ_eq_map]
        simp only [List.map_cons, List.map_map]
        congr 1
        apply List.map_congr_left
        intro j hj
        simp only [Function.comp_apply, Nat.succ_eq_add_one]
        rw [show i + 1 + j = i + (j + 1) by omega]

/-- If every one of the `n + 1` available attempts fails with a retryable
message, the loop performs all of them and re-raises the last error. -/
theorem retryLoop_exhaust {T : Type} (op : ℕ → Except String T) (d : ℕ) :
    ∀ (n i : ℕ) (e : String),
      (∀ k, k < n + 1 → ∃ m, op (i + k) = Except.error m ∧ isRetryableMsg m = true) →
      ∃ m, op (i + n) = Except.error m ∧
        (retryLoop op d (n + 1) i e).result = Except.error m ∧
        (retryLoop op d (n + 1) i e).calls = n + 1 := by
  intro n
  induction n with
  | zero =>
    intro i e hall
    obtain ⟨m, hm, hret⟩ := hall 0 (by omega)
    rw [Nat.add_zero] at hm
    refine ⟨m, hm, ?_⟩
    rw [retryLoop, hm]
    simp
  | succ n ih =>
    intro i e hall
    obtain ⟨m0, hm0, hret0⟩ := hall 0 (by omega)
    rw [Nat.add_zero] at hm0
    have hnext : ∀ k, k < n + 1 →
        ∃ m, op (i + 1 + k) = Except.error m ∧ isRetryableMsg m = true := by
      intro k hk
      obtain ⟨m, hm, hr⟩ := hall (k + 1) (by omega)
      exact ⟨m, by rw [show i + 1 + k = i + (k + 1) by omega]; exact hm, hr⟩
    obtain ⟨m, hm, hres, hcalls⟩ := ih (i + 1) m0 hnext
    have hcond : (!isRetryableMsg m0 || (n + 1) == 0) = false := by
      rw [hret0]
      simp
    refine ⟨m, by rw [show i + (n + 1) = i + 1 + n by omega]; exact hm, ?_, ?_⟩
    · rw [retryLoop, hm0]
      simp only [hcond, Bool.false_eq_true, if_false]
      exact hres
    · rw [retryLoop, hm0]
      simp only [hcond, Bool.false_eq_true, if_false]
      rw [hcalls]

/-- A first failure with a non-retryable message stops the loop after a
single invocation, with no wait, propagating that error. -/
theorem retryLoop_first_stop {T : Type} (op : ℕ → Except String T)
    (d n i : ℕ) (e m : String) (h : op i = Except.error m)
    (hnr : isRetryableMsg m = false) :
    retryLoop op d (n + 1) i e
      = { result := Except.error m, calls := 1, waits := [] } := by
  rw [retryLoop, h]
  simp [hnr]

/-- A successful trace comes from a successful invocation of the wrapped
operation. -/
theorem retryLoop_ok_exists {T : Type} (op : ℕ → Except String T) (d : ℕ) :
    ∀ (remaining i : ℕ) (e : String) (v : T),
      (retryLoop op d remaining i e).result = Except.ok v →
      ∃ j, op j = Except.ok v := by
  intro remaining
  induction remaining with
  | zero =>
    intro i e v h
    simp [retryLoop] at h
  | succ n ih =>
    intro i e v h
    rw [retryLoop] at h
    cases hop : op i with
    | ok w =>
      rw [hop] at h
      simp only at h
      exact ⟨i, by rw [hop, h]⟩
    | error msg =>
      rw [hop] at h
      by_cases hb : (!isRetryableMsg msg || n == 0) = true
      · simp [hb] at h
      · simp only [Bool.not_eq_true] at hb
        simp only [hb, Bool.false_eq_true, if_false] at h
        exact ih (i + 1) msg v h


/-- C2: `withRetry` invokes the operation at most `retries` total times; the
delays waited are `d·2⁰, d·2¹, …` in order (one fewer than the number of
invocations); when every attempt fails with a retryable error, the last
error is re-raised unchanged after exactly `retries` invocations; and an
operation failing retryably on its first two invocations and succeeding on
the third, run with 3 total attempts, returns the success value after
exactly 3 invocations with waits `d` and `d·2`. -/
theorem withRetry_backoff_spec {T : Type} (op : ℕ → Except String T)
    (retries d : ℕ) (hr : 1 ≤ retries) :
    (withRetry op retries d).calls ≤ retries ∧
    (withRetry op retries d).waits
      = (List.range ((withRetry op retries d).calls - 1)).map
          (fun j => d * 2 ^ j) ∧
    ((∀ k, k < retries → ∃ m, op k = Except.error m ∧ isRetryableMsg m = true) →
      ∃ m, op (retries - 1) = Except.error m ∧
        (withRetry op retries d).result = Except.error m ∧
        (withRetry op retries d).calls = retries) ∧
    (∀ (v : T) (m0 m1 : String),
      op 0 = Except.error m0 → isRetryableMsg m0 = true →
      op 1 = Except.error m1 → isRetryableMsg m1 = true →
      op 2 = Except.ok v →
      withRetry op 3 d
        = { result := Except.ok v, calls := 3, waits := [d, d * 2] }) := by
  refine ⟨retryLoop_calls_le op d retries 0 "", ?_, ?_, ?_⟩
  · have h := retryLoop_waits_eq op d retries 0 ""
    simpa using h
  · intro hall
    obtain ⟨n, rfl⟩ : ∃ n, retries = n + 1 := ⟨retries - 1, by omega⟩
    have hall0 : ∀ k, k < n + 1 →
        ∃ m, op (0 + k) = Except.error m ∧ isRetryableMsg m = true := by
      intro k hk
      simpa using hall k hk
    obtain ⟨m, hm, hres, hcalls⟩ := retryLoop_exhaust op d n 0 "" hall0
    exact ⟨m, by simpa using hm, hres, by simpa using hcalls⟩
  · intro v m0 m1 h0 hr0 h1 hr1 h2
    have s2 : retryLoop op d 1 2 m1
        = { result := Except.ok v, calls := 1, waits := [] } := by
      rw [retryLoop, h2]
    have c1 : (!isRetryableMsg m1 || (1 : ℕ) == 0) = false := by
      rw [hr1]
      decide
    have s1 : retryLoop op d 2 1 m0
        = { result := Except.ok v, calls := 2, waits := [d * 2 ^ 1] } := by
      rw [retryLoop, h1]
      simp only [c1, Bool.false_eq_true, if_false]
      rw [s2]
    have c0 : (!isRetryableMsg m0 || (2 : ℕ) == 0) = false := by
      rw [hr0]
      decide
    rw [withRetry, retryLoop, h0]
    simp only [c0, Bool.false_eq_true, if_false]
    rw [s1]
    simp [pow_succ]

/-- Witness for C2: an operation failing with a "429" message twice and
succeeding on the third invocation, with 3 attempts and base delay 5. -/
theorem withRetry_backoff_spec_witness :
    withRetry
        (fun i => if i < 2 then (Except.error "429" : Except String String)
          else Except.ok "done") 3 5
      = { result := Except.ok "done", calls := 3, waits := [5, 10] } := by
  have h := (withRetry_backoff_spec
    (fun i => if i < 2 then (Except.error "429" : Except String String)
      else Except.ok "done") 3 5 (by norm_num)).2.2.2
    "done" "429" "429" (by decide) (by decide) (by decide) (by decide) (by decide)
  simpa using h

/-- Counterexample for C4: the source classifies transience purely by
message substrings, so an operation that fails with a refusal-class error
whose message happens to contain "429" is retried — with the default
parameters it is invoked 3 times with two waits, not exactly once with
none. -/
theorem withRetry_refusal_with_429_retried :
    (withRetry
        (fun _ => (Except.error "Generation Failed: Model Refused: error 429"
          : Except String String))
        withRetryDefaultRetries withRetryDefaultDelay).calls = 3 ∧
    (withRetry
        (fun _ => (Except.error "Generation Failed: Model Refused: error 429"
          : Except String String))
        withRetryDefaultRetries withRetryDefaultDelay).waits
      = [2000, 4000] := by
  constructor <;> decide

/-- C4 (amended): `withRetry` never retries an operation whose failure
message contains none of the trigger substrings ("429", "503", "Quota",
"High Traffic", "RESOURCE_EXHAUSTED", "fetch failed"): it is invoked
exactly once, with no wait, and the original error propagates unchanged.
The fixed safety-block and empty-response messages are of this kind, so
those error classes are never retried; but the behaviour is message-driven,
not class-driven, so a refusal whose text contains a trigger substring is
retried. -/
theorem withRetry_nonRetryable_single_attempt {T : Type}
    (op : ℕ → Except String T) (retries d : ℕ) (m : String)
    (h0 : op 0 = Except.error m) (hnr : isRetryableMsg m = false)
    (hr : 1 ≤ retries) :
    withRetry op retries d
      = { result := Except.error m, calls := 1, waits := [] } ∧
    isRetryableMsg safetyBlockMsg = false ∧
    isRetryableMsg ("Generation Failed: " ++ "No image data found in response")
      = false := by
  obtain ⟨n, rfl⟩ : ∃ n, retries = n + 1 := ⟨retries - 1, by omega⟩
  exact ⟨retryLoop_first_stop op d n 0 "" m h0 hnr, by decide, by decide⟩

/-- Witness for C4 (amended): an operation failing with the safety-block
message is invoked once and not retried. -/
theorem withRetry_nonRetryable_single_attempt_witness :
    withRetry (fun _ => (Except.error safetyBlockMsg : Except String String))
        withRetryDefaultRetries withRetryDefaultDelay
      = { result := Except.error safetyBlockMsg, calls := 1, waits := [] } ∧
    isRetryableMsg safetyBlockMsg = false ∧
    isRetryableMsg ("Generation Failed: " ++ "No image data found in response")
      = false :=
  withRetry_nonRetryable_single_attempt
    (fun _ => (Except.error safetyBlockMsg : Except String String))
    withRetryDefaultRetries withRetryDefaultDelay safetyBlockMsg
    rfl (by decide) (by decide)

/-- If no part carries inline data, the `for` loop of `editImage` finds no
image. -/
theorem firstInlinePayload_none (parts : List CandidatePart)
    (h : ∀ p ∈ parts, p.inlineData = none) :
    firstInlinePayload parts = none := by
  unfold firstInlinePayload
  have hf : parts.find? (fun p => p.inlineData.isSome) = none := by
    rw [List.find?_eq_none]
    intro p hp
    simp [h p hp]
  rw [hf]
  rfl

/-- A successful extraction is the data URL of the first inline payload. -/
theorem extractFromParts_ok_form (parts : List CandidatePart) (s : String)
    (h : extractFromParts parts = Except.ok s) :
    ∃ d, firstInlinePayload parts = some d ∧
      s = "data:" ++ d.mimeType ++ ";base64," ++ d.data := by
  unfold extractFromParts at h
  cases hfi : firstInlinePayload parts with
  | some d =>
    rw [hfi] at h
    refine ⟨d, rfl, ?_⟩
    injection h with h'
    exact h'.symm
  | none =>
    rw [hfi] at h
    cases ht : firstNonemptyText parts with
    | some t =>
      rw [ht] at h
      exact absurd h (by simp)
    | none =>
      rw [ht] at h
      exact absurd h (by simp)

/-- A successful `editImage` attempt comes from a response whose parts
carry inline data, and resolves to the corresponding data URL. -/
theorem editImageAttempt_ok_form (parseStep : String → JsonParseOutcome)
    (resp : Option (List CandidatePart)) (s : String)
    (h : editImageAttempt parseStep resp = Except.ok s) :
    ∃ parts d, resp = some parts ∧ firstInlinePayload parts = some d ∧
      s = "data:" ++ d.mimeType ++ ";base64," ++ d.data := by
  cases resp with
  | none => simp [editImageAttempt] at h
  | some parts =>
    cases hex : extractFromParts parts with
    | ok url =>
      simp only [editImageAttempt, hex, Except.ok.injEq] at h
      obtain ⟨d, hd, hurl⟩ := extractFromParts_ok_form parts url hex
      refine ⟨parts, d, rfl, hd, ?_⟩
      rw [← h]
      exact hurl
    | error e =>
      simp [editImageAttempt, hex] at h

/-- Counterexample for C6: a provider response whose only part is the text
"Quota exceeded" is rewritten by `handleGeminiError` into the fixed quota
message — which does not carry the refusal text — and that message is
retryable, so the operation is invoked 3 times by the default retry policy
rather than failing once with a refusal carrying the text. -/
theorem refusal_quota_text_counterexample :
    editImageAttempt (fun _ => JsonParseOutcome.parseFailed)
        (some [{ inlineData := none, text := some "Quota exceeded" }])
      = Except.error quotaExceededMsg ∧
    containsSub quotaExceededMsg "Quota exceeded" = false ∧
    isRetryableMsg quotaExceededMsg = true ∧
    (withRetry
        (fun _ => editImageAttempt (fun _ => JsonParseOutcome.parseFailed)
          (some [{ inlineData := none, text := some "Quota exceeded" }]))
        withRetryDefaultRetries withRetryDefaultDelay).calls = 3 := by
  refine ⟨by decide, by decide, by decide, by decide⟩

/-- C6 (amended): for a provider response whose parts carry no inline image
and whose first truthy text `t` induces no classifier rewrite (no "429",
"RESOURCE_EXHAUSTED", "Quota exceeded", "SAFETY" or "blocked" substring in
the refusal message, no JSON-branch trigger) and no retry trigger in the
surfaced message, the transform fails with the refusal error carrying `t`,
the retry policy invokes the operation exactly once with no wait, and
`handleSubmit` records that message for display.  The original claim's
universal form (for every text) fails: texts containing such substrings are
rewritten and possibly retried (see the counterexample). -/
theorem refusal_text_surfaced_once
    (t : String) (parts : List CandidatePart)
    (hnoimg : ∀ p ∈ parts, p.inlineData = none)
    (htext : firstNonemptyText parts = some t)
    (h429 : containsSub ("Model Refused: " ++ t) "429" = false)
    (hres : containsSub ("Model Refused: " ++ t) "RESOURCE_EXHAUSTED" = false)
    (hq : containsSub ("Model Refused: " ++ t) "Quota exceeded" = false)
    (hsafe : containsSub ("Model Refused: " ++ t) "SAFETY" = false)
    (hblock : containsSub ("Model Refused: " ++ t) "blocked" = false)
    (hjson : jsonTrigger ("Model Refused: " ++ t) = false)
    (hretry : isRetryableMsg ("Generation Failed: " ++ ("Model Refused: " ++ t))
      = false)
    (parseStep : String → JsonParseOutcome) (retries d : ℕ) (hr : 1 ≤ retries)
    (s : EditorState) (cropFn : String → String → Except String String)
    (hp : ¬ s.prompt = "")
    (hv : ¬ (s.mode = Mode.imageToImage ∧ s.originalImage = none)) :
    editImageAttempt parseStep (some parts)
      = Except.error ("Generation Failed: " ++ ("Model Refused: " ++ t)) ∧
    withRetry (fun _ => editImageAttempt parseStep (some parts)) retries d
      = { result :=
            Except.error ("Generation Failed: " ++ ("Model Refused: " ++ t)),
          calls := 1, waits := [] } ∧
    (handleSubmit s
        (Except.error ("Generation Failed: " ++ ("Model Refused: " ++ t)))
        cropFn).1.error
      = some ("Generation Failed: " ++ ("Model Refused: " ++ t)) := by
  have h1 : extractFromParts parts = Except.error ("Model Refused: " ++ t) := by
    unfold extractFromParts
    rw [firstInlinePayload_none parts hnoimg, htext]
  have hc1 : (containsSub ("Model Refused: " ++ t) "429" ||
      containsSub ("Model Refused: " ++ t) "RESOURCE_EXHAUSTED" ||
      containsSub ("Model Refused: " ++ t) "Quota exceeded") = false := by
    rw [h429, hres, hq]
    rfl
  have hc2 : (containsSub ("Model Refused: " ++ t) "SAFETY" ||
      containsSub ("Model Refused: " ++ t) "blocked") = false := by
    rw [hsafe, hblock]
    rfl
  have h2 : handleGeminiError parseStep ("Model Refused: " ++ t)
      = "Generation Failed: " ++ ("Model Refused: " ++ t) := by
    unfold handleGeminiError
    rw [hc1, hc2, hjson]
    simp
  have hattempt : editImageAttempt parseStep (some parts)
      = Except.error ("Generation Failed: " ++ ("Model Refused: " ++ t)) := by
    simp [editImageAttempt, h1, h2]
  obtain ⟨n, rfl⟩ : ∃ n, retries = n + 1 := ⟨retries - 1, by omega⟩
  refine ⟨hattempt, retryLoop_first_stop _ d n 0 "" _ hattempt hretry, ?_⟩
  simp [handleSubmit, hp, hv]

/-- Witness for C6 (amended) with the refusal text "I cannot do that". -/
theorem refusal_text_surfaced_once_witness :
    editImageAttempt (fun _ => JsonParseOutcome.parseFailed)
        (some [{ inlineData := none, text := some "I cannot do that" }])
      = Except.error
          ("Generation Failed: " ++ ("Model Refused: " ++ "I cannot do that")) ∧
    withRetry
        (fun _ => editImageAttempt (fun _ => JsonParseOutcome.parseFailed)
          (some [{ inlineData := none, text := some "I cannot do that" }]))
        3 2000
      = { result :=
            Except.error
              ("Generation Failed: " ++ ("Model Refused: " ++ "I cannot do that")),
          calls := 1, waits := [] } ∧
    (handleSubmit
        { mode := Mode.imageToImage,
          originalImage :=
            some { dataUrl := "u", base64 := "b", mimeType := "image/png" },
          prompt := "make it sunset", editedImage := none, error := none,
          autoRatioOn := true, aspectRatioStr := "1:1" }
        (Except.error
          ("Generation Failed: " ++ ("Model Refused: " ++ "I cannot do that")))
        (fun _ _ => Except.ok "c")).1.error
      = some ("Generation Failed: " ++ ("Model Refused: " ++ "I cannot do that")) :=
  refusal_text_surfaced_once "I cannot do that"
    [{ inlineData := none, text := some "I cannot do that" }]
    (by decide) (by decide) (by decide) (by decide) (by decide) (by decide)
    (by decide) (by decide) (by decide)
    (fun _ => JsonParseOutcome.parseFailed) 3 2000 (by norm_num)
    { mode := Mode.imageToImage,
      originalImage :=
        some { dataUrl := "u", base64 := "b", mimeType := "image/png" },
      prompt := "make it sunset", editedImage := none, error := none,
      autoRatioOn := true, aspectRatioStr := "1:1" }
    (fun _ _ => Except.ok "c") (by decide) (by decide)

/-- C10: `editImage` never resolves with the empty-string fallback: every
successful resolution is the data URL assembled from the first inline
payload of some attempt's response, of the form
`data:<mimeType>;base64,<data>`, and in particular is nonempty (the
`return ""` line is unreachable because `handleGeminiError` always
throws). -/
theorem editImage_ok_is_data_url
    (parseStep : String → JsonParseOutcome)
    (resps : ℕ → Option (List CandidatePart)) (s : String)
    (h : (editImage parseStep resps).result = Except.ok s) :
    (∃ mt dt, s = "data:" ++ mt ++ ";base64," ++ dt) ∧ s ≠ "" := by
  obtain ⟨j, hj⟩ := retryLoop_ok_exists
    (fun i => editImageAttempt parseStep (resps i)) withRetryDefaultDelay
    withRetryDefaultRetries 0 "" s h
  obtain ⟨parts, dd, hresp, hfi, hs⟩ :=
    editImageAttempt_ok_form parseStep (resps j) s hj
  refine ⟨⟨dd.mimeType, dd.data, hs⟩, ?_⟩
  rw [hs]
  intro hcon
  have hlen := congrArg String.length hcon
  simp only [String.length_append] at hlen
  have h5 : ("data:" : String).length = 5 := rfl
  have h0 : ("" : String).length = 0 := rfl
  omega

/-- Witness for C10: a response with an inline PNG payload resolves to the
corresponding data URL, which is nonempty. -/
theorem editImage_ok_is_data_url_witness :
    (∃ mt dt, "data:image/png;base64,AAAA" = "data:" ++ mt ++ ";base64," ++ dt) ∧
    "data:image/png;base64,AAAA" ≠ "" :=
  editImage_ok_is_data_url (fun _ => JsonParseOutcome.parseFailed)
    (fun _ => some [⟨some ⟨"image/png", "AAAA"⟩, none⟩])
    "data:image/png;base64,AAAA" (by decide)

/-- C3: a submission with an empty prompt, or in Image-to-Image mode with
no source image present, fails immediately with the corresponding
validation message: the remote transform operation is invoked zero times
and the stored result is untouched. -/
theorem handleSubmit_validation_no_remote_call
    (s : EditorState) (remote : Except String String)
    (cropFn : String → String → Except String String)
    (h : s.prompt = "" ∨ (s.mode = Mode.imageToImage ∧ s.originalImage = none)) :
    (handleSubmit s remote cropFn).2 = 0 ∧
    ((handleSubmit s remote cropFn).1.error = some emptyPromptMsg ∨
     (handleSubmit s remote cropFn).1.error = some missingImageMsg) ∧
    (handleSubmit s remote cropFn).1.editedImage = s.editedImage := by
  by_cases hp : s.prompt = ""
  · simp [handleSubmit, hp]
  · rcases h with h | h
    · exact absurd h hp
    · simp [handleSubmit, hp, h]

/-- Witness for C3: Image-to-Image submission with no uploaded image. -/
theorem handleSubmit_validation_no_remote_call_witness :
    (handleSubmit
        { mode := Mode.imageToImage, originalImage := none,
          prompt := "make it sunset", editedImage := none, error := none,
          autoRatioOn := true, aspectRatioStr := "1:1" }
        (Except.ok "img") (fun _ _ => Except.ok "c")).2 = 0 ∧
    ((handleSubmit
        { mode := Mode.imageToImage, originalImage := none,
          prompt := "make it sunset", editedImage := none, error := none,
          autoRatioOn := true, aspectRatioStr := "1:1" }
        (Except.ok "img") (fun _ _ => Except.ok "c")).1.error
        = some emptyPromptMsg ∨
     (handleSubmit
        { mode := Mode.imageToImage, originalImage := none,
          prompt := "make it sunset", editedImage := none, error := none,
          autoRatioOn := true, aspectRatioStr := "1:1" }
        (Except.ok "img") (fun _ _ => Except.ok "c")).1.error
        = some missingImageMsg) ∧
    (handleSubmit
        { mode := Mode.imageToImage, originalImage := none,
          prompt := "make it sunset", editedImage := none, error := none,
          autoRatioOn := true, aspectRatioStr := "1:1" }
        (Except.ok "img") (fun _ _ => Except.ok "c")).1.editedImage = none :=
  handleSubmit_validation_no_remote_call
    { mode := Mode.imageToImage, originalImage := none,
      prompt := "make it sunset", editedImage := none, error := none,
      autoRatioOn := true, aspectRatioStr := "1:1" }
    (Except.ok "img") (fun _ _ => Except.ok "c") (Or.inr ⟨rfl, rfl⟩)

/-- C5: for a valid submission whose remote transform succeeds, auto-ratio
enabled stores exactly the provider's returned data URL as the final result
with no crop applied, while auto-ratio disabled stores the output of the
crop function applied to the provider result and the selected aspect
ratio.  In both cases the remote operation ran once. -/
theorem handleSubmit_autoRatio_result
    (s : EditorState) (url : String)
    (cropFn : String → String → Except String String)
    (hp : ¬ s.prompt = "")
    (hv : ¬ (s.mode = Mode.imageToImage ∧ s.originalImage = none)) :
    (s.autoRatioOn = true →
      (handleSubmit s (Except.ok url) cropFn).1.editedImage = some url ∧
      (handleSubmit s (Except.ok url) cropFn).1.error = none ∧
      (handleSubmit s (Except.ok url) cropFn).2 = 1) ∧
    (s.autoRatioOn = false →
      ∀ c, cropFn url s.aspectRatioStr = Except.ok c →
        (handleSubmit s (Except.ok url) cropFn).1.editedImage = some c ∧
        (handleSubmit s (Except.ok url) cropFn).2 = 1) := by
  constructor
  · intro ha
    simp [handleSubmit, hp, hv, ha]
  · intro ha c hc
    simp [handleSubmit, hp, hv, ha, hc]

/-- Witness for C5: with auto-ratio enabled the provider data URL is stored
unmodified. -/
theorem handleSubmit_autoRatio_result_witness :
    (handleSubmit
        { mode := Mode.textToImage, originalImage := none,
          prompt := "a banana", editedImage := none, error := none,
          autoRatioOn := true, aspectRatioStr := "1:1" }
        (Except.ok "data:image/png;base64,AAAA")
        (fun _ _ => Except.ok "c")).1.editedImage
      = some "data:image/png;base64,AAAA" ∧
    (handleSubmit
        { mode := Mode.textToImage, originalImage := none,
          prompt := "a banana", editedImage := none, error := none,
          autoRatioOn := true, aspectRatioStr := "1:1" }
        (Except.ok "data:image/png;base64,AAAA")
        (fun _ _ => Except.ok "c")).1.error = none ∧
    (handleSubmit
        { mode := Mode.textToImage, originalImage := none,
          prompt := "a banana", editedImage := none, error := none,
          autoRatioOn := true, aspectRatioStr := "1:1" }
        (Except.ok "data:image/png;base64,AAAA")
        (fun _ _ => Except.ok "c")).2 = 1 :=
  (handleSubmit_autoRatio_result
    { mode := Mode.textToImage, originalImage := none,
      prompt := "a banana", editedImage := none, error := none,
      autoRatioOn := true, aspectRatioStr := "1:1" }
    "data:image/png;base64,AAAA" (fun _ _ => Except.ok "c")
    (by decide) (by decide)).1 rfl

/-- Counterexample for C7: a failing remote call does not preserve the
previously stored edit result.  `handleSubmit` clears `editedImage` at the
start of every non-validation submission, so the prior result `some "old"`
has become `none` once the failed submission finishes. -/
theorem failed_submit_clears_prior_result :
    (handleSubmit
        { mode := Mode.imageToImage,
          originalImage :=
            some { dataUrl := "u", base64 := "b", mimeType := "image/png" },
          prompt := "p", editedImage := some "old", error := none,
          autoRatioOn := true, aspectRatioStr := "1:1" }
        (Except.error "boom") (fun _ _ => Except.ok "c")).1.error
      = some "boom" ∧
    (handleSubmit
        { mode := Mode.imageToImage,
          originalImage :=
            some { dataUrl := "u", base64 := "b", mimeType := "image/png" },
          prompt := "p", editedImage := some "old", error := none,
          autoRatioOn := true, aspectRatioStr := "1:1" }
        (Except.error "boom") (fun _ _ => Except.ok "c")).1.editedImage
      = none ∧
    ¬ (handleSubmit
        { mode := Mode.imageToImage,
          originalImage :=
            some { dataUrl := "u", base64 := "b", mimeType := "image/png" },
          prompt := "p", editedImage := some "old", error := none,
          autoRatioOn := true, aspectRatioStr := "1:1" }
        (Except.error "boom") (fun _ _ => Except.ok "c")).1.editedImage
      = some "old" := by
  refine ⟨by decide, by decide, by decide⟩

/-- C7 (amended): when a valid submission fails in the remote call or in
the cropping step, the error message is recorded for display, but the
previously stored result does not survive: `editedImage` is cleared to
`none` at the start of the submission and is still `none` after the
failure. -/
theorem handleSubmit_failure_records_error
    (s : EditorState) (e : String)
    (cropFn : String → String → Except String String)
    (hp : ¬ s.prompt = "")
    (hv : ¬ (s.mode = Mode.imageToImage ∧ s.originalImage = none)) :
    ((handleSubmit s (Except.error e) cropFn).1.error = some e ∧
     (handleSubmit s (Except.error e) cropFn).1.editedImage = none) ∧
    (∀ url, s.autoRatioOn = false →
      cropFn url s.aspectRatioStr = Except.error e →
      (handleSubmit s (Except.ok url) cropFn).1.error = some e ∧
      (handleSubmit s (Except.ok url) cropFn).1.editedImage = none) := by
  constructor
  · simp [handleSubmit, hp, hv]
  · intro url ha hc
    simp [handleSubmit, hp, hv, ha, hc]

/-- Witness for C7 (amended): a failed remote call records the error and
leaves no stored result, even though one existed before the submission. -/
theorem handleSubmit_failure_records_error_witness :
    (handleSubmit
        { mode := Mode.imageToImage,
          originalImage :=
            some { dataUrl := "u", base64 := "b", mimeType := "image/png" },
          prompt := "p", editedImage := some "old", error := none,
          autoRatioOn := false, aspectRatioStr := "16:9" }
        (Except.error "boom") (fun _ _ => Except.error "boom")).1.error
      = some "boom" ∧
    (handleSubmit
        { mode := Mode.imageToImage,
          originalImage :=
            some { dataUrl := "u", base64 := "b", mimeType := "image/png" },
          prompt := "p", editedImage := some "old", error := none,
          autoRatioOn := false, aspectRatioStr := "16:9" }
        (Except.error "boom") (fun _ _ => Except.error "boom")).1.editedImage
      = none :=
  (handleSubmit_failure_records_error
    { mode := Mode.imageToImage,
      originalImage :=
        some { dataUrl := "u", base64 := "b", mimeType := "image/png" },
      prompt := "p", editedImage := some "old", error := none,
      autoRatioOn := false, aspectRatioStr := "16:9" }
    "boom" (fun _ _ => Except.error "boom") (by decide) (by decide)).1

/-- Counterexample for C8: the retry policy used by the transform
operations of `src/services/geminiService.ts` — the module `src/App.tsx`
imports — defaults to 3 total attempts and a 2000 ms base delay, not the
4 attempts / 5000 ms the claim states. -/
theorem retry_defaults_counterexample :
    withRetryDefaultRetries = 3 ∧ withRetryDefaultDelay = 2000 ∧
    ¬ (withRetryDefaultRetries = 4 ∧ withRetryDefaultDelay = 5000) := by
  refine ⟨rfl, rfl, ?_⟩
  intro hcon
  exact absurd hcon.1 (by decide)

/-- C8 (amended): the repository carries two divergent retry policies.
The service imported by the main app (`src/services/geminiService.ts`)
defaults to 3 total attempts with a 2000 ms base delay — and `editImage`
runs with exactly those defaults — while the `src/unnamed/part_001`
variant defaults to 4 total attempts with a 5000 ms base delay (the values
the spec normalizes on). -/
theorem retry_defaults_per_variant :
    withRetryDefaultRetries = 3 ∧ withRetryDefaultDelay = 2000 ∧
    part001DefaultRetries = 4 ∧ part001DefaultDelay = 5000 ∧
    (∀ (parseStep : String → JsonParseOutcome)
        (resps : ℕ → Option (List CandidatePart)),
      editImage parseStep resps
        = withRetry (fun i => editImageAttempt parseStep (resps i)) 3 2000) :=
  ⟨rfl, rfl, rfl, rfl, fun _ _ => rfl⟩

end NanoBanana
